import Mathlib

/-!
Shallow embedding of the YouTube-shorts script generation service
(`src/main.py`) and verification of its behavioral contract.

The service is a single FastAPI endpoint composed of four parts, each
embedded here from the source:

* `get_video_id` — ordered regex extraction of an 11-character video id;
* `download_transcript` — transcript fetch with ko → en → any-language
  fallback (the external transcript provider is an oracle parameter, and
  the embedding additionally returns the list of provider calls made, so
  that temporal claims about which calls happen can be stated);
* `generate_shorts_script` — prompt construction, LLM invocation (oracle
  parameter), markdown fence stripping, JSON parsing;
* `generate_shorts` / `handle_request` — the endpoint handler mapping any
  failure to a uniform HTTP 500 response, preceded by the framework's
  required-field validation of the request body.

Machine strings are `String`/`List Char`; fallible code returns `Except`;
Python exceptions are modeled as `Except.error` carrying the exception's
message text, since the source re-raises everything as a bare `Exception`
whose only payload is that text.
-/

/-! ### Identifier extractor (`get_video_id`, src/main.py lines 37-48) -/

/-- Character class of the regex alphabet `[0-9A-Za-z_-]` used by all three
video-id patterns of `get_video_id`. -/
def isIdChar (c : Char) : Bool :=
  c.isDigit || c.isUpper || c.isLower || c = '_' || c = '-'

/-- Greedy exact-count matcher for the regex piece `[0-9A-Za-z_-]{n}`:
consume exactly `n` characters of the id alphabet, returning the consumed
group and the remaining input, or `none` when fewer than `n` such
characters are present at the front. -/
def takeIdChars : Nat → List Char → Option (List Char × List Char)
  | 0, l => some ([], l)
  | _ + 1, [] => none
  | n + 1, c :: cs =>
    if isIdChar c then
      match takeIdChars n cs with
      | some (g, r) => some (c :: g, r)
      | none => none
    else none

/-- One attempt of pattern 1, `(?:v=|\/)([0-9A-Za-z_-]{11}).*`, anchored at
the current position: the alternation tries `v=` then `/`, then the capture
group takes exactly 11 alphabet characters; the trailing `.*` always
matches and is therefore not represented. -/
def match_v_slash : List Char → Option (List Char)
  | 'v' :: '=' :: rest => (takeIdChars 11 rest).map Prod.fst
  | '/' :: rest => (takeIdChars 11 rest).map Prod.fst
  | _ => none

/-- `re.search` scan for pattern 1: try each start position left to right,
first match wins; the value is the captured 11-character group. -/
def search_v_slash : List Char → Option (List Char)
  | [] => none
  | c :: cs =>
    match match_v_slash (c :: cs) with
    | some g => some g
    | none => search_v_slash cs

/-- One attempt of pattern 2, `(?:embed\/)([0-9A-Za-z_-]{11})`, anchored at
the current position. -/
def match_embed : List Char → Option (List Char)
  | 'e' :: 'm' :: 'b' :: 'e' :: 'd' :: '/' :: rest => (takeIdChars 11 rest).map Prod.fst
  | _ => none

/-- `re.search` scan for pattern 2. -/
def search_embed : List Char → Option (List Char)
  | [] => none
  | c :: cs =>
    match match_embed (c :: cs) with
    | some g => some g
    | none => search_embed cs

/-- Pattern 3, `^([0-9A-Za-z_-]{11})$`: the whole input is exactly an
11-character token.  Python's `$` (without `re.MULTILINE`) also matches
just before a single trailing newline, so that case is included. -/
def match_full_id (l : List Char) : Option (List Char) :=
  match takeIdChars 11 l with
  | some (g, []) => some g
  | some (g, ['\n']) => some g
  | _ => none

/-- `get_video_id` (src/main.py lines 37-48): apply the three patterns in
order, return the first capture, or `None` when none of them match. -/
def get_video_id (url : String) : Option String :=
  match search_v_slash url.data with
  | some g => some (String.mk g)
  | none =>
    match search_embed url.data with
    | some g => some (String.mk g)
    | none => (match_full_id url.data).map String.mk

/-- Comparison definition for the refinement claim about pattern 2: the
extractor with the second (`embed/`) pattern removed, everything else
unchanged. -/
def get_video_id_without_embed (url : String) : Option String :=
  match search_v_slash url.data with
  | some g => some (String.mk g)
  | none => (match_full_id url.data).map String.mk

/-- An 11-character run of id-alphabet characters occurs somewhere in the
input.  Every one of the three patterns needs such a run to match, so this
is the semantic precondition for extraction to succeed. -/
def has_id_run : List Char → Bool
  | [] => false
  | c :: cs => (takeIdChars 11 (c :: cs)).isSome || has_id_run cs

/-- Decidable certificate that a pattern-1 scan fails everywhere inside a
concrete part of the input regardless of what follows it: every suffix
either begins with a character other than `v`/`/`, or begins with `/` but
a non-alphabet character occurs among the next 11 characters (so the
capture group cannot complete, whatever comes after this part). -/
def scan_skip_ok : List Char → Bool
  | [] => true
  | c :: cs =>
    (if c = 'v' then false
     else if c = '/' then (cs.take 11).any (fun d => !(isIdChar d))
     else true) && scan_skip_ok cs

/-! ### Transcript fetcher (`download_transcript`, src/main.py lines 50-72) -/

/-- One transcript segment as returned by the provider's raw data: a
`{text, start, duration}` record.  The timing payload type is a parameter
(the source never inspects it). -/
structure TranscriptSegment (α : Type) where
  text : String
  start : α
  duration : α
  deriving DecidableEq

/-- Flatten a fetched transcript: `'\n'.join(item['text'] for item in
transcript_data)` — each segment's text in original order joined by
newlines (src/main.py line 68). -/
def transcript_full_text {α : Type} (transcript_data : List (TranscriptSegment α)) : String :=
  String.intercalate "\n" (transcript_data.map (fun item => item.text))

/-- `download_transcript` (src/main.py lines 50-72), instrumented with the
ordered list of provider calls made (each call is the `languages` argument
passed to `ytt_api.fetch`, `none` for the unconstrained call).  The
provider is the oracle `fetch`.  Mirrors the source's nested `try` blocks:
preferred language, then `['en']`, then no language constraint; the outer
`try` prefixes every failure with the aggregate message. -/
def download_transcript_traced {α : Type}
    (fetch : String → Option (List String) → Except String (List (TranscriptSegment α)))
    (video_url : String) (language : String := "ko") :
    Except String String × List (Option (List String)) :=
  match get_video_id video_url with
  | none => (.error ("자막 다운로드 실패: " ++ "유효하지 않은 YouTube URL입니다."), [])
  | some video_id =>
    match fetch video_id (some [language]) with
    | .ok t => (.ok (transcript_full_text t), [some [language]])
    | .error _ =>
      match fetch video_id (some ["en"]) with
      | .ok t => (.ok (transcript_full_text t), [some [language], some ["en"]])
      | .error _ =>
        match fetch video_id none with
        | .ok t => (.ok (transcript_full_text t), [some [language], some ["en"], none])
        | .error e =>
          (.error ("자막 다운로드 실패: " ++ e), [some [language], some ["en"], none])

/-- The fetcher's result, forgetting the call trace. -/
def download_transcript {α : Type}
    (fetch : String → Option (List String) → Except String (List (TranscriptSegment α)))
    (video_url : String) (language : String := "ko") : Except String String :=
  (download_transcript_traced fetch video_url language).1

/-! ### Script generator (`generate_shorts_script`, src/main.py lines 74-143) -/

/-- Backtick character, written by code point. -/
def graveChar : Char := Char.ofNat 96

/-- The markdown fence: three backticks. -/
def fence_marker : List Char := [graveChar, graveChar, graveChar]

/-- The optional fence language tag `json`. -/
def json_tag : List Char := ['j', 's', 'o', 'n']

/-- ASCII whitespace stripped by Python's `str.strip()` (space, tab,
newline, carriage return, vertical tab, form feed; `str.strip` also strips
some Unicode spaces, which never occur in the claims). -/
def is_py_space (c : Char) : Bool :=
  c = ' ' || c = '\t' || c = '\n' || c = '\r' || c = Char.ofNat 11 || c = Char.ofNat 12

/-- Python `str.strip()`: drop whitespace from both ends. -/
def py_strip (l : List Char) : List Char :=
  ((l.dropWhile is_py_space).reverse.dropWhile is_py_space).reverse

/-- Boolean "the first list is a prefix of the second" (Python
`str.startswith`). -/
def starts_with_chars : List Char → List Char → Bool
  | [], _ => true
  | _ :: _, [] => false
  | p :: ps, c :: cs => p == c && starts_with_chars ps cs

/-- Split at the first occurrence of a (nonempty) separator: returns the
segment before the first occurrence, and — when the separator occurs —
the remainder after it. -/
def split_first (sep : List Char) : List Char → List Char × Option (List Char)
  | [] => ([], none)
  | c :: cs =>
    if starts_with_chars sep (c :: cs) then ([], some ((c :: cs).drop sep.length))
    else
      let p := split_first sep cs
      (c :: p.1, p.2)

/-- The fence occurs somewhere in the input. -/
def has_fence : List Char → Bool
  | [] => false
  | c :: cs => starts_with_chars fence_marker (c :: cs) || has_fence cs

/-- Response post-processing of `generate_shorts_script` (src/main.py
lines 126-133): strip whitespace; if the result starts with a triple
backtick fence, take `content.split("```")[1]` — since the fence is a
prefix, segment 0 is empty and segment 1 is the text from index 3 up to
the next fence occurrence (or the end when there is none) — then drop a
leading `json` tag (4 characters) when present, and strip again. -/
def extract_json_source (resp : List Char) : List Char :=
  let content := py_strip resp
  if starts_with_chars fence_marker content then
    let seg := (split_first fence_marker (content.drop 3)).1
    let seg2 := if starts_with_chars json_tag seg then seg.drop 4 else seg
    py_strip seg2
  else content

/-- JSON whitespace (RFC 8259: space, tab, newline, carriage return). -/
def is_json_ws (c : Char) : Bool :=
  c = ' ' || c = '\t' || c = '\n' || c = '\r'

/-- Left brace character, written by code point. -/
def leftBrace : Char := Char.ofNat 123

/-- Right brace character, written by code point. -/
def rightBrace : Char := Char.ofNat 125

/-- JSON string body scanner (after the opening quote): accumulates
characters until the closing quote, handling the single-character escape
sequences and rejecting raw control characters, as `json.loads` does in
its default strict mode.  `\uXXXX` escapes are not modeled (none occur in
any claim). -/
def parse_string_aux : List Char → List Char → Option (List Char × List Char)
  | _, [] => none
  | acc, '\\' :: rest =>
    match rest with
    | [] => none
    | e :: rest2 =>
      if e = '"' then parse_string_aux ( '"' :: acc) rest2
      else if e = '\\' then parse_string_aux ( '\\' :: acc) rest2
      else if e = '/' then parse_string_aux ( '/' :: acc) rest2
      else if e = 'n' then parse_string_aux ( '\n' :: acc) rest2
      else if e = 't' then parse_string_aux ( '\t' :: acc) rest2
      else if e = 'r' then parse_string_aux ( '\r' :: acc) rest2
      else if e = 'b' then parse_string_aux (Char.ofNat 8 :: acc) rest2
      else if e = 'f' then parse_string_aux (Char.ofNat 12 :: acc) rest2
      else none
  | acc, c :: rest =>
    if c = '"' then some (acc.reverse, rest)
    else if c.val < 32 then none
    else parse_string_aux (c :: acc) rest

/-- Parse one JSON string literal (opening quote onward). -/
def parse_jstring (l : List Char) : Option (String × List Char) :=
  match l with
  | '"' :: r =>
    match parse_string_aux [] r with
    | some (cs, rest) => some (String.mk cs, rest)
    | none => none
  | _ => none

/-- Insert into an association list with Python `dict` semantics: a later
binding for an existing key overwrites in place, a new key is appended. -/
def dict_set (d : List (String × String)) (k v : String) : List (String × String) :=
  if d.any (fun p => p.1 == k) then
    d.map (fun p => if p.1 == k then (k, v) else p)
  else d ++ [(k, v)]

/-- Build the Python `dict` from parsed members (duplicate keys: last
value wins, as in `json.loads`). -/
def mk_dict (pairs : List (String × String)) : List (String × String) :=
  pairs.foldl (fun d kv => dict_set d kv.1 kv.2) []

/-- Parse the member list of a JSON object, after the opening brace and
leading whitespace: `"key" : "value"` pairs separated by commas, ending at
the closing brace.  Fuel bounds the recursion. -/
def parse_members : Nat → List Char → Option (List (String × String) × List Char)
  | 0, _ => none
  | fuel + 1, l =>
    match parse_jstring l with
    | none => none
    | some (k, r1) =>
      match r1.dropWhile is_json_ws with
      | ':' :: r3 =>
        match parse_jstring (r3.dropWhile is_json_ws) with
        | none => none
        | some (v, r5) =>
          match r5.dropWhile is_json_ws with
          | c :: r7 =>
            if c = ',' then
              match parse_members fuel (r7.dropWhile is_json_ws) with
              | some (rest_pairs, r8) => some ((k, v) :: rest_pairs, r8)
              | none => none
            else if c = rightBrace then some ([(k, v)], r7)
            else none
          | [] => none
      | _ => none

/-- Model of `json.loads` restricted to objects with string keys and
string values — the only response shape the service's schema
(`ShortsScriptResponse`: four required string fields) accepts.  Error
messages are modeled as short fixed strings (the stdlib's messages carry
position information that no claim depends on). -/
def parse_json (s : String) : Except String (List (String × String)) :=
  let l := s.data.dropWhile is_json_ws
  match l with
  | c :: r =>
    if c = leftBrace then
      match r.dropWhile is_json_ws with
      | d :: r2 =>
        if d = rightBrace then
          if (r2.dropWhile is_json_ws).isEmpty then .ok [] else .error "Extra data"
        else
          match parse_members (r.length + 1) (d :: r2) with
          | some (pairs, rest) =>
            if (rest.dropWhile is_json_ws).isEmpty then .ok (mk_dict pairs)
            else .error "Extra data"
          | none => .error "Expecting value"
      | [] => .error "Expecting value"
    else .error "Expecting value"
  | [] => .error "Expecting value"

/-- The prompt template of `generate_shorts_script` (src/main.py lines
82-123), an f-string parameterized by the transcript text and the style
label (the style is spliced twice).  Literal braces of the JSON skeleton
are written by code point escape. -/
def build_prompt (transcript_text style : String) : String :=
  "You are an expert scriptwriter for short-form video content. Your task is to create a YouTube Shorts script based on the provided YouTube video transcript. The script must include a catchy title, engaging subtitles, narration, and visual suggestions, tailored to a specific style.\n\n**Input:**\n- Transcript: "
  ++ transcript_text
  ++ "\n- Desired Style: "
  ++ style
  ++ "\n- Duration: 1 minute\n\n**Instructions:**\n\n1. **Summary Requirements:**\n   - Extract only the core message and key information from the transcript.\n   - Maintain logical flow and coherence.\n   - Avoid omitting critical information.\n\n2. **Style Requirements:**\n   - Adapt the tone and language to match the specified style ("
  ++ style
  ++ ").\n   - For example:\n     - Emotional: Use heartfelt, inspiring language to evoke deep feelings.\n     - Funny: Incorporate humor, light-hearted phrasing, or witty remarks.\n     - Immersive: Create vivid, sensory-driven descriptions to captivate the audience.\n     - Documentary : Use factual, authoritative, and narrative-driven language.\n\n3. **Output Format:**\n   - **Title**: A short, attention-grabbing title (5-10 words) that hooks the audience.\n   - **Subtitles**: Concise, engaging text for on-screen display\n   - **Narration**: A script for voice-over that matches the style and complements the subtitles\n   - **Visual Suggestions**: Brief descriptions of visuals or effects to enhance the narrative\n\n4. **Language**: Write the title, subtitles, and narration in Korean. Visual suggestions can be in English for clarity.\n\n**Output:**\nProvide the response in JSON format with the structure:\n```json\n\x7b\n  \"title\": \"한국어로 된 후킹 제목\",\n  \"subtitles\": \"간결하고 매력적인 자막 텍스트\",\n  \"narration\": \"내레이션 스크립트\",\n  \"visual_suggestions\": \"Visual descriptions\"\n\x7d\n```\n\nImportant: Respond ONLY with valid JSON. Do not include any text before or after the JSON."

/-- `generate_shorts_script` (src/main.py lines 74-143), instrumented with
the number of LLM invocations made.  The LLM (model construction plus
`model.invoke`) is the oracle `invoke`; Python's `not api_key` guard is
the empty-string test (the missing-key case is rejected by request
validation before this function can run).  Mirrors the source's `except`
clauses: a JSON parse failure carries the offending content, every other
failure is wrapped as a generic generation failure. -/
def generate_shorts_script_traced (invoke : String → Except String String)
    (transcript_text : String) (api_key : String) (style : String := "감성적") :
    Except String (List (String × String)) × Nat :=
  if api_key = "" then
    (.error ("스크립트 생성 실패: " ++ "OpenAI API 키가 필요합니다."), 0)
  else
    match invoke (build_prompt transcript_text style) with
    | .error e => (.error ("스크립트 생성 실패: " ++ e), 1)
    | .ok raw =>
      let content := String.mk (extract_json_source raw.data)
      match parse_json content with
      | .ok result => (.ok result, 1)
      | .error e => (.error ("JSON 파싱 실패: " ++ e ++ "\n응답 내용: " ++ content), 1)

/-- The script generator's result, forgetting the invocation count. -/
def generate_shorts_script (invoke : String → Except String String)
    (transcript_text : String) (api_key : String) (style : String := "감성적") :
    Except String (List (String × String)) :=
  (generate_shorts_script_traced invoke transcript_text api_key style).1

/-! ### Request handler (`generate_shorts` endpoint, src/main.py lines 146-182) -/

/-- Validated request body (`VideoRequest` pydantic model, src/main.py
lines 25-28). -/
structure VideoRequest where
  video_url : String
  api_key : String
  style : String := "감성적"
  deriving DecidableEq

/-- Success payload (`ShortsScriptResponse`, src/main.py lines 31-35). -/
structure ShortsScriptResponse where
  title : String
  subtitles : String
  narration : String
  visual_suggestions : String
  deriving DecidableEq

/-- HTTP outcome of the endpoint: a 200 payload, or an error status with
its `detail` message (`HTTPException(status_code, detail)`). -/
inductive HttpResult where
  | ok (resp : ShortsScriptResponse)
  | err (status : Nat) (detail : String)
  deriving DecidableEq

/-- Outbound calls made while serving one request: the transcript provider
calls (in order, with their language arguments) and the number of LLM
invocations. -/
structure ProviderTrace where
  transcript_calls : List (Option (List String))
  llm_calls : Nat
  deriving DecidableEq

/-- Python `script["key"]` on the parsed dict: the value when the key is
present, otherwise a `KeyError` whose message (`str(KeyError('k'))`) is
the quoted key. -/
def dict_get (d : List (String × String)) (k : String) : Except String String :=
  match d.lookup k with
  | some v => .ok v
  | none => .error ("'" ++ k ++ "'")

/-- The `/summarize` handler body (src/main.py lines 146-182), after
request validation: download the transcript (always with preferred
language `ko`), generate the script, read the four required fields in the
source's evaluation order, and map any raised failure to an HTTP 500
carrying the exception's message. -/
def generate_shorts {α : Type}
    (fetch : String → Option (List String) → Except String (List (TranscriptSegment α)))
    (invoke : String → Except String String) (request : VideoRequest) :
    HttpResult × ProviderTrace :=
  match download_transcript_traced fetch request.video_url "ko" with
  | (.error e, tcalls) => (.err 500 e, ⟨tcalls, 0⟩)
  | (.ok transcript_text, tcalls) =>
    match generate_shorts_script_traced invoke transcript_text request.api_key request.style with
    | (.error e, n) => (.err 500 e, ⟨tcalls, n⟩)
    | (.ok script, n) =>
      match dict_get script "title" with
      | .error e => (.err 500 e, ⟨tcalls, n⟩)
      | .ok title =>
        match dict_get script "subtitles" with
        | .error e => (.err 500 e, ⟨tcalls, n⟩)
        | .ok subtitles =>
          match dict_get script "narration" with
          | .error e => (.err 500 e, ⟨tcalls, n⟩)
          | .ok narration =>
            match dict_get script "visual_suggestions" with
            | .error e => (.err 500 e, ⟨tcalls, n⟩)
            | .ok visual_suggestions =>
              (.ok ⟨title, subtitles, narration, visual_suggestions⟩, ⟨tcalls, n⟩)

/-- Raw request body before validation: each field possibly absent. -/
structure RawRequest where
  video_url : Option String
  api_key : Option String
  style : Option String
  deriving DecidableEq

/-- The endpoint as reached over HTTP: pydantic first rejects a body
missing a required field with a 422 validation error (the handler never
runs, so no provider is called); otherwise the missing style defaults and
the handler runs.  The 422 detail is modeled as a fixed string (FastAPI's
actual payload is a structured list; no claim depends on its text). -/
def handle_request {α : Type}
    (fetch : String → Option (List String) → Except String (List (TranscriptSegment α)))
    (invoke : String → Except String String) (raw : RawRequest) :
    HttpResult × ProviderTrace :=
  match raw.video_url, raw.api_key with
  | some v, some k => generate_shorts fetch invoke ⟨v, k, raw.style.getD "감성적"⟩
  | _, _ => (.err 422 "field required", ⟨[], 0⟩)

/-! ### Concrete provider stubs used to instantiate the oracles -/

/-- Transcript provider stub that only has an English track: the `en`
fetch succeeds, every other fetch fails. -/
def fetch_en_only : String → Option (List String) → Except String (List (TranscriptSegment Nat)) :=
  fun _ langs =>
    match langs with
    | some ["en"] => .ok [⟨"hello", 0, 2⟩, ⟨"world", 2, 2⟩]
    | _ => .error "no transcript"

/-- Transcript provider stub with a Korean track containing a duplicated
segment text. -/
def fetch_dup_ko : String → Option (List String) → Except String (List (TranscriptSegment Nat)) :=
  fun _ langs =>
    match langs with
    | some ["ko"] => .ok [⟨"같은 줄", 0, 1⟩, ⟨"같은 줄", 1, 1⟩, ⟨"다른 줄", 2, 1⟩]
    | _ => .error "no transcript"

/-- Transcript provider stub whose every failure message happens to equal
the service's own invalid-URL message. -/
def fetch_invalid_msg : String → Option (List String) → Except String (List (TranscriptSegment Nat)) :=
  fun _ _ => .error "유효하지 않은 YouTube URL입니다."

/-- Transcript provider stub that always succeeds immediately. -/
def fetch_ok_simple : String → Option (List String) → Except String (List (TranscriptSegment Nat)) :=
  fun _ _ => .ok [⟨"자막", 0, 1⟩]

/-- LLM stub returning a fixed reply. -/
def invoke_stub : String → Except String String :=
  fun _ => .ok "x"

/-- LLM stub replying with valid JSON that lacks the narration field. -/
def invoke_missing_narration : String → Except String String :=
  fun _ => .ok "\x7b\"title\": \"t\", \"subtitles\": \"s\", \"visual_suggestions\": \"v\"\x7d"

/-! ### Lemmas about the identifier extractor -/

/-- The capture group `[0-9A-Za-z_-]{n}` consumes exactly an `n`-character
all-alphabet block at the front, whatever follows it. -/
theorem takeIdChars_exact (tok r : List Char) (hid : ∀ c ∈ tok, isIdChar c = true) :
    takeIdChars tok.length (tok ++ r) = some (tok, r) := by
  induction tok with
  | nil => simp [takeIdChars]
  | cons c cs ih =>
    have hc : isIdChar c = true := hid c (List.mem_cons_self c cs)
    have ih2 := ih (fun d hd => hid d (List.mem_cons_of_mem c hd))
    simp [takeIdChars, hc, ih2]

/-- A non-alphabet character among the first `n` characters of a block
makes the `{n}` capture fail, whatever follows the block. -/
theorem takeIdChars_fails (l : List Char) : ∀ (n : Nat) (ys : List Char),
    ((l.take n).any fun d => !(isIdChar d)) = true → takeIdChars n (l ++ ys) = none := by
  induction l with
  | nil => intro n ys h; simp at h
  | cons c cs ih =>
    intro n ys h
    match n with
    | 0 => simp at h
    | m + 1 =>
      simp only [List.take_succ_cons, List.any_cons, Bool.or_eq_true, Bool.not_eq_true'] at h
      rcases h with h | h
      · simp [takeIdChars, h]
      · by_cases hc : isIdChar c = true
        · simp [takeIdChars, hc, ih m ys h]
        · simp [takeIdChars, hc]

/-- Shape inversion for a pattern-1 match. -/
theorem match_v_slash_some {l : List Char} {g : List Char}
    (h : match_v_slash l = some g) :
    (∃ r, l = 'v' :: '=' :: r ∧ (takeIdChars 11 r).map Prod.fst = some g) ∨
    (∃ r, l = '/' :: r ∧ (takeIdChars 11 r).map Prod.fst = some g) := by
  unfold match_v_slash at h
  split at h
  · exact Or.inl ⟨_, rfl, h⟩
  · exact Or.inr ⟨_, rfl, h⟩
  · exact absurd h (by simp)

/-- A position whose head is neither `v` nor `/` cannot start a pattern-1
match. -/
theorem match_v_slash_none (c : Char) (cs : List Char) (h1 : c ≠ 'v') (h2 : c ≠ '/') :
    match_v_slash (c :: cs) = none := by
  rcases hm : match_v_slash (c :: cs) with _ | g
  · rfl
  · rcases match_v_slash_some hm with ⟨r, hr, _⟩ | ⟨r, hr, _⟩
    · injection hr with hc _
      exact absurd hc h1
    · injection hr with hc _
      exact absurd hc h2

/-- The scan skips a leading block certified by `scan_skip_ok`, whatever
input follows the block. -/
theorem scan_skip_sound (xs ys : List Char) (h : scan_skip_ok xs = true) :
    search_v_slash (xs ++ ys) = search_v_slash ys := by
  induction xs with
  | nil => rfl
  | cons c cs ih =>
    simp only [scan_skip_ok, Bool.and_eq_true] at h
    obtain ⟨hhead, hrest⟩ := h
    have hnone : match_v_slash (c :: (cs ++ ys)) = none := by
      by_cases hv : c = 'v'
      · simp [hv] at hhead
      · by_cases hs : c = '/'
        · subst hs
          simp only [if_neg hv, if_pos rfl] at hhead
          have : takeIdChars 11 (cs ++ ys) = none := takeIdChars_fails cs 11 ys hhead
          simp [match_v_slash, this]
        · exact match_v_slash_none c _ hv hs
    have hstep : search_v_slash (c :: (cs ++ ys)) = search_v_slash (cs ++ ys) := by
      simp [search_v_slash, hnone]
    rw [List.cons_append, hstep]
    exact ih hrest

/-- A `v=` position whose next 11 characters are alphabet characters is a
successful pattern-1 match. -/
theorem search_found_veq (r g rest : List Char) (h : takeIdChars 11 r = some (g, rest)) :
    search_v_slash ('v' :: '=' :: r) = some g := by
  simp [search_v_slash, match_v_slash, h]

/-- A `/` position whose next 11 characters are alphabet characters is a
successful pattern-1 match. -/
theorem search_found_slash (r g rest : List Char) (h : takeIdChars 11 r = some (g, rest)) :
    search_v_slash ('/' :: r) = some g := by
  simp [search_v_slash, match_v_slash, h]

/-- A `/` position whose capture fails is skipped by the scan. -/
theorem search_step_slash (r : List Char) (h : takeIdChars 11 r = none) :
    search_v_slash ('/' :: r) = search_v_slash r := by
  simp [search_v_slash, match_v_slash, h]

/-- On input made only of alphabet characters (a bare token), pattern 1
never matches: it needs a `=` or `/`, which are not alphabet characters. -/
theorem search_v_slash_all_id (l : List Char) (hid : ∀ c ∈ l, isIdChar c = true) :
    search_v_slash l = none := by
  induction l with
  | nil => rfl
  | cons c cs ih =>
    have ih2 := ih (fun d hd => hid d (List.mem_cons_of_mem c hd))
    rcases hm : match_v_slash (c :: cs) with _ | g
    · simp [search_v_slash, hm, ih2]
    · rcases match_v_slash_some hm with ⟨r, hr, _⟩ | ⟨r, hr, _⟩
      · have : ('=' : Char) ∈ c :: cs := by rw [hr]; simp
        have := hid _ this
        simp [isIdChar] at this
      · have : ('/' : Char) ∈ c :: cs := by rw [hr]; simp
        have := hid _ this
        simp [isIdChar] at this

/-- Shape inversion for a pattern-2 match. -/
theorem match_embed_some {l : List Char} {g : List Char}
    (h : match_embed l = some g) :
    ∃ r, l = 'e' :: 'm' :: 'b' :: 'e' :: 'd' :: '/' :: r ∧
      (takeIdChars 11 r).map Prod.fst = some g := by
  unfold match_embed at h
  split at h
  · exact ⟨_, rfl, h⟩
  · exact absurd h (by simp)

/-- Position inversion for a successful pattern-2 scan. -/
theorem search_embed_some {l : List Char} {g : List Char}
    (h : search_embed l = some g) :
    ∃ t r, l = t ++ ('e' :: 'm' :: 'b' :: 'e' :: 'd' :: '/' :: r) ∧
      (takeIdChars 11 r).map Prod.fst = some g := by
  induction l with
  | nil => simp [search_embed] at h
  | cons c cs ih =>
    rcases hm : match_embed (c :: cs) with _ | g2
    · simp only [search_embed, hm] at h
      obtain ⟨t, r, hl, hr⟩ := ih h
      exact ⟨c :: t, r, by simp [hl], hr⟩
    · simp only [search_embed, hm] at h
      injection h with hgg
      subst hgg
      obtain ⟨r, hl, hr⟩ := match_embed_some hm
      exact ⟨[], r, by simp [hl], hr⟩

/-- On a bare token, pattern 2 never matches either (it needs a `/`). -/
theorem search_embed_all_id (l : List Char) (hid : ∀ c ∈ l, isIdChar c = true) :
    search_embed l = none := by
  rcases hm : search_embed l with _ | g
  · rfl
  · obtain ⟨t, r, hl, _⟩ := search_embed_some hm
    have : ('/' : Char) ∈ l := by rw [hl]; simp
    have := hid _ this
    simp [isIdChar] at this

/-- A successful pattern-1 position somewhere in the middle of the input
makes the whole scan succeed (with some capture). -/
theorem search_v_slash_some_of_mid (t sub : List Char)
    (h : (match_v_slash sub).isSome = true) :
    (search_v_slash (t ++ sub)).isSome = true := by
  induction t with
  | nil =>
    match sub, h with
    | c :: cs, h => simp only [List.nil_append, search_v_slash]; cases hm : match_v_slash (c :: cs) <;> simp_all
  | cons a t' ih =>
    simp only [List.cons_append, search_v_slash]
    cases hm : match_v_slash (a :: (t' ++ sub)) <;> simp_all

/-- An 11-character run at the front certifies a run. -/
theorem has_id_run_of_take {r : List Char} (h : (takeIdChars 11 r).isSome = true) :
    has_id_run r = true := by
  cases r with
  | nil => simp [takeIdChars] at h
  | cons c cs => simp [has_id_run, h]

/-- A run somewhere in the tail is a run of the whole input. -/
theorem has_id_run_append (t r : List Char) (h : has_id_run r = true) :
    has_id_run (t ++ r) = true := by
  induction t with
  | nil => simpa
  | cons a t' ih => simp [has_id_run, ih]

/-- A successful capture of pattern 1 exhibits an 11-character alphabet
run in the input. -/
theorem search_v_slash_some_run {l g : List Char} (h : search_v_slash l = some g) :
    has_id_run l = true := by
  induction l with
  | nil => simp [search_v_slash] at h
  | cons c cs ih =>
    rcases hm : match_v_slash (c :: cs) with _ | g2
    · simp only [search_v_slash, hm] at h
      simp [has_id_run, ih h]
    · rcases match_v_slash_some hm with ⟨r, hr, hg⟩ | ⟨r, hr, hg⟩
      · rcases Option.map_eq_some'.mp hg with ⟨⟨g3, rest⟩, ht, _⟩
        have hrun : has_id_run r = true := has_id_run_of_take (by simp [ht])
        rw [hr]
        exact has_id_run_append ['v', '='] r hrun
      · rcases Option.map_eq_some'.mp hg with ⟨⟨g3, rest⟩, ht, _⟩
        have hrun : has_id_run r = true := has_id_run_of_take (by simp [ht])
        rw [hr]
        exact has_id_run_append ['/'] r hrun

/-- A successful capture of pattern 2 exhibits an 11-character alphabet
run in the input. -/
theorem search_embed_some_run {l g : List Char} (h : search_embed l = some g) :
    has_id_run l = true := by
  obtain ⟨t, r, hl, hg⟩ := search_embed_some h
  rcases Option.map_eq_some'.mp hg with ⟨⟨g3, rest⟩, ht, _⟩
  have hrun : has_id_run r = true := has_id_run_of_take (by simp [ht])
  rw [hl]
  exact has_id_run_append t _ (has_id_run_append ['e', 'm', 'b', 'e', 'd', '/'] r hrun)

/-- A successful pattern-3 match exhibits an 11-character alphabet run. -/
theorem match_full_id_some_run {l g : List Char} (h : match_full_id l = some g) :
    has_id_run l = true := by
  rcases ht : takeIdChars 11 l with _ | p
  · exfalso
    unfold match_full_id at h
    rw [ht] at h
    simp at h
  · exact has_id_run_of_take (by simp [ht])

/-- Unfolding helper: the character data of a built string. -/
theorem data_mk (l : List Char) : (String.mk l).data = l := rfl

/-- The extractor returns pattern 1's capture when the pattern-1 scan
succeeds. -/
theorem get_video_id_of_search (url : String) (g : List Char)
    (h : search_v_slash url.data = some g) : get_video_id url = some (String.mk g) := by
  simp [get_video_id, h]

/-- The extractor falls through to pattern 3 when the first two scans
fail. -/
theorem get_video_id_of_full (url : String) (g : List Char)
    (h1 : search_v_slash url.data = none) (h2 : search_embed url.data = none)
    (h3 : match_full_id url.data = some g) : get_video_id url = some (String.mk g) := by
  simp [get_video_id, h1, h2, h3]

/-- C2: for every 11-character token over the alphabet `[0-9A-Za-z_-]`,
the identifier extractor returns the token on each of the three supported
input shapes: a `watch?v=` URL, an `embed/` URL, and the bare token. -/
theorem video_id_three_shapes (tok : List Char) (hlen : tok.length = 11)
    (hid : ∀ c ∈ tok, isIdChar c = true) :
    get_video_id (String.mk ("https://www.youtube.com/watch?v=".data ++ tok)) =
        some (String.mk tok) ∧
    get_video_id (String.mk ("https://www.youtube.com/embed/".data ++ tok)) =
        some (String.mk tok) ∧
    get_video_id (String.mk tok) = some (String.mk tok) := by
  have h0 : takeIdChars 11 tok = some (tok, []) := by
    have h := takeIdChars_exact tok [] hid
    rw [hlen, List.append_nil] at h
    exact h
  refine ⟨?_, ?_, ?_⟩
  · have hs : search_v_slash ("https://www.youtube.com/watch?v=".data ++ tok) = some tok := by
      have e1 : "https://www.youtube.com/watch?v=".data ++ tok =
          "https://www.youtube.com/watch?".data ++ ('v' :: '=' :: tok) := rfl
      rw [e1, scan_skip_sound _ _ (by decide)]
      exact search_found_veq tok tok [] h0
    exact get_video_id_of_search _ tok hs
  · have hs : search_v_slash ("https://www.youtube.com/embed/".data ++ tok) = some tok := by
      have e1 : "https://www.youtube.com/embed/".data ++ tok =
          "https://www.youtube.com".data ++ ( '/' :: ("embed".data ++ ( '/' :: tok))) := rfl
      have e2 : takeIdChars 11 ("embed".data ++ ( '/' :: tok)) = none := rfl
      rw [e1, scan_skip_sound _ _ (by decide), search_step_slash _ e2,
        scan_skip_sound _ _ (by decide)]
      exact search_found_slash tok tok [] h0
    exact get_video_id_of_search _ tok hs
  · have h1 : search_v_slash tok = none := search_v_slash_all_id tok hid
    have h2 : search_embed tok = none := search_embed_all_id tok hid
    have h3 : match_full_id tok = some tok := by
      unfold match_full_id
      rw [h0]
    exact get_video_id_of_full _ tok h1 h2 h3

/-- Witness for C2 at the concrete token `abc123XY_-Z`. -/
theorem video_id_three_shapes_witness :
    get_video_id "https://www.youtube.com/watch?v=abc123XY_-Z" = some "abc123XY_-Z" ∧
    get_video_id "https://www.youtube.com/embed/abc123XY_-Z" = some "abc123XY_-Z" ∧
    get_video_id "abc123XY_-Z" = some "abc123XY_-Z" :=
  video_id_three_shapes "abc123XY_-Z".data (by decide) (by decide)

/-- C7: an input with no 11-character run of id-alphabet characters is
matched by none of the three patterns (each needs such a run), so the
extractor returns the no-match result `none`; the embedding is total, so
no crash is possible. -/
theorem no_id_run_returns_none (url : String) (h : has_id_run url.data = false) :
    get_video_id url = none := by
  rcases h1 : search_v_slash url.data with _ | g
  · rcases h2 : search_embed url.data with _ | g
    · rcases h3 : match_full_id url.data with _ | g
      · simp [get_video_id, h1, h2, h3]
      · exact absurd (match_full_id_some_run h3) (by simp [h])
    · exact absurd (search_embed_some_run h2) (by simp [h])
  · exact absurd (search_v_slash_some_run h1) (by simp [h])

/-- Witness for C7 at the concrete tokenless input. -/
theorem no_id_run_returns_none_witness :
    has_id_run "https://example.com".data = false ∧
    get_video_id "https://example.com" = none :=
  ⟨by decide, no_id_run_returns_none "https://example.com" (by decide)⟩

/-- Counterexample for C10 as stated: on this input the second (`embed/`)
pattern would capture one group while the first pattern captures a
different one, so "the first pattern matches with the same captured
group" is false (the extractor itself returns the first pattern's
capture). -/
theorem embed_capture_differs :
    search_embed "v=aaaaaaaaaaaembed/bbbbbbbbbbb".data = some "bbbbbbbbbbb".data ∧
    search_v_slash "v=aaaaaaaaaaaembed/bbbbbbbbbbb".data = some "aaaaaaaaaaa".data ∧
    get_video_id "v=aaaaaaaaaaaembed/bbbbbbbbbbb" = some "aaaaaaaaaaa" ∧
    ("aaaaaaaaaaa" : String) ≠ "bbbbbbbbbbb" :=
  ⟨by decide, by decide, by decide, by decide⟩

/-- C10 (amended): the `embed/` pattern is redundant — whenever it
matches, the first pattern also matches (though possibly with a different
captured group), and since patterns are tried in order the extractor
without the second pattern is extensionally equal to the original. -/
theorem embed_removal_equiv (url : String) :
    get_video_id url = get_video_id_without_embed url := by
  rcases h1 : search_v_slash url.data with _ | g
  · rcases h2 : search_embed url.data with _ | g
    · simp [get_video_id, get_video_id_without_embed, h1, h2]
    · exfalso
      obtain ⟨t, r, hl, hg⟩ := search_embed_some h2
      rcases Option.map_eq_some'.mp hg with ⟨⟨g3, rest⟩, ht, hgg⟩
      have hmid : (match_v_slash ( '/' :: r)).isSome = true := by
        simp [match_v_slash, ht]
      have hsome := search_v_slash_some_of_mid (t ++ ['e', 'm', 'b', 'e', 'd']) ( '/' :: r) hmid
      rw [show (t ++ ['e', 'm', 'b', 'e', 'd']) ++ ( '/' :: r) =
        t ++ ('e' :: 'm' :: 'b' :: 'e' :: 'd' :: '/' :: r) by simp] at hsome
      rw [← hl, h1] at hsome
      simp at hsome
  · simp [get_video_id, get_video_id_without_embed, h1]

/-! ### Claims about the transcript fetcher -/

/-- C1: on a resolvable input the fetcher attempts the preferred language
`ko`, then the fixed fallback `en`, then a fetch with no language
constraint, in that strict order, returning the first success; the call
trace records exactly the attempts made, so in particular when the
preferred fetch fails and the fallback succeeds, the fallback's content
is returned and the third call never appears in the trace. -/
theorem transcript_fallback_order {α : Type}
    (fetch : String → Option (List String) → Except String (List (TranscriptSegment α)))
    (url : String) (vid : String) (h : get_video_id url = some vid) :
    (∀ t, fetch vid (some ["ko"]) = .ok t →
      download_transcript_traced fetch url "ko" =
        (.ok (transcript_full_text t), [some ["ko"]])) ∧
    (∀ e t, fetch vid (some ["ko"]) = .error e → fetch vid (some ["en"]) = .ok t →
      download_transcript_traced fetch url "ko" =
        (.ok (transcript_full_text t), [some ["ko"], some ["en"]])) ∧
    (∀ e1 e2, fetch vid (some ["ko"]) = .error e1 → fetch vid (some ["en"]) = .error e2 →
      download_transcript_traced fetch url "ko" =
        ((match fetch vid none with
          | .ok t => .ok (transcript_full_text t)
          | .error e => .error ("자막 다운로드 실패: " ++ e)),
         [some ["ko"], some ["en"], none])) := by
  refine ⟨?_, ?_, ?_⟩
  · intro t ht
    simp [download_transcript_traced, h, ht]
  · intro e t he ht
    simp [download_transcript_traced, h, he, ht]
  · intro e1 e2 h1 h2
    rcases h3 : fetch vid none with e3 | t3 <;>
      simp [download_transcript_traced, h, h1, h2, h3]

/-- Witness for C1: preferred-language fetch fails, fallback succeeds;
the English content is returned and the trace stops after two calls. -/
theorem transcript_fallback_order_witness :
    download_transcript_traced fetch_en_only "abc123XY_-Z" "ko" =
      (.ok "hello\nworld", [some ["ko"], some ["en"]]) :=
  (transcript_fallback_order fetch_en_only "abc123XY_-Z" "abc123XY_-Z"
      (by decide)).2.1 "no transcript"
    [⟨"hello", 0, 2⟩, ⟨"world", 2, 2⟩] rfl rfl

/-- Counterexample for C6 as stated: the fetcher's extraction-failure
error is not a distinct kind — both it and a downstream provider failure
surface as the same exception shape carrying a message string, and here a
provider whose error text happens to equal the invalid-URL text makes an
extraction failure (left) and an exhausted-fallback provider failure on a
perfectly valid input (right) produce identical errors. -/
theorem invalid_url_error_collides :
    (download_transcript_traced fetch_invalid_msg "???" "ko").1 =
      .error "자막 다운로드 실패: 유효하지 않은 YouTube URL입니다." ∧
    (download_transcript_traced fetch_invalid_msg "abc123XY_-Z" "ko").1 =
      .error "자막 다운로드 실패: 유효하지 않은 YouTube URL입니다." :=
  ⟨rfl, rfl⟩

/-- C6 (amended): when identifier extraction fails, the fetcher fails
fast with the fixed invalid-URL message and an empty provider call trace
(no transcript fetch is attempted); the error is distinguished from
downstream failures only by its message text, not by a structural kind. -/
theorem invalid_url_fail_fast {α : Type}
    (fetch : String → Option (List String) → Except String (List (TranscriptSegment α)))
    (url : String) (lang : String) (h : get_video_id url = none) :
    download_transcript_traced fetch url lang =
      (.error "자막 다운로드 실패: 유효하지 않은 YouTube URL입니다.", []) := by
  simp [download_transcript_traced, h]

/-- Witness for C6 (amended) at a concrete unparseable input. -/
theorem invalid_url_fail_fast_witness :
    download_transcript_traced fetch_invalid_msg "???" "ko" =
      (.error "자막 다운로드 실패: 유효하지 않은 YouTube URL입니다.", []) :=
  invalid_url_fail_fast fetch_invalid_msg "???" "ko" (by decide)

/-- C9: whenever the fetch chain succeeds with a list of segments (at
whichever fallback stage), the fetcher returns exactly the newline-join
of the segments' text fields in original order — duplicates retained,
timing fields ignored. -/
theorem transcript_join_order {α : Type}
    (fetch : String → Option (List String) → Except String (List (TranscriptSegment α)))
    (url vid lang : String) (segs : List (TranscriptSegment α))
    (h : get_video_id url = some vid)
    (hok : fetch vid (some [lang]) = .ok segs ∨
      (∃ e, fetch vid (some [lang]) = .error e ∧ fetch vid (some ["en"]) = .ok segs) ∨
      (∃ e1 e2, fetch vid (some [lang]) = .error e1 ∧ fetch vid (some ["en"]) = .error e2 ∧
        fetch vid none = .ok segs)) :
    download_transcript fetch url lang =
      .ok (String.intercalate "\n" (segs.map (fun item => item.text))) := by
  rcases hok with h1 | ⟨e, h1, h2⟩ | ⟨e1, e2, h1, h2, h3⟩
  · simp [download_transcript, download_transcript_traced, h, h1, transcript_full_text]
  · simp [download_transcript, download_transcript_traced, h, h1, h2, transcript_full_text]
  · simp [download_transcript, download_transcript_traced, h, h1, h2, h3, transcript_full_text]

/-- Witness for C9: duplicate segment texts joined with newlines, both
occurrences retained in order. -/
theorem transcript_join_order_witness :
    download_transcript fetch_dup_ko "abc123XY_-Z" "ko" = .ok "같은 줄\n같은 줄\n다른 줄" :=
  transcript_join_order fetch_dup_ko "abc123XY_-Z" "abc123XY_-Z" "ko"
    [⟨"같은 줄", 0, 1⟩, ⟨"같은 줄", 1, 1⟩, ⟨"다른 줄", 2, 1⟩] (by decide) (Or.inl rfl)

/-! ### Claims about the request handler -/

/-- Counterexample for C3 as stated: a request with a present but empty
api_key is not rejected before outbound calls — the handler contacts the
transcript provider (one preferred-language fetch appears in the trace)
before failing on the key check. -/
theorem api_key_empty_still_fetches :
    (handle_request fetch_ok_simple invoke_stub
        ⟨some "https://www.youtube.com/watch?v=abc123XY_-Z", some "", none⟩).2.transcript_calls =
      [some ["ko"]] ∧
    ([some ["ko"]] : List (Option (List String))) ≠ [] :=
  ⟨rfl, by decide⟩

/-- C3 (amended): a body with the api_key field missing fails framework
validation before the handler runs, with no outbound call of either kind;
a present-but-empty api_key only guarantees that the LLM provider is
never invoked — the transcript fetch is still attempted first. -/
theorem api_key_validation_gate {α : Type}
    (fetch : String → Option (List String) → Except String (List (TranscriptSegment α)))
    (invoke : String → Except String String) :
    (∀ vurl style, handle_request fetch invoke ⟨vurl, none, style⟩ =
      (.err 422 "field required", ⟨[], 0⟩)) ∧
    (∀ url style, (handle_request fetch invoke ⟨some url, some "", style⟩).2.llm_calls = 0) := by
  constructor
  · intro vurl style
    cases vurl <;> rfl
  · intro url style
    show (generate_shorts fetch invoke _).2.llm_calls = 0
    rcases hdl : download_transcript_traced fetch url "ko" with ⟨res, tcalls⟩
    rcases res with e | tx
    · simp [generate_shorts, hdl]
    · simp [generate_shorts, hdl, generate_shorts_script_traced]

/-- C8: after validation, every outcome of the handler is either a full
success payload or an HTTP 500 carrying some failure message — bad URL,
empty key, transcript failure, generation failure and missing response
fields all surface with the same fixed 500 status. -/
theorem handler_uniform_500 {α : Type}
    (fetch : String → Option (List String) → Except String (List (TranscriptSegment α)))
    (invoke : String → Except String String) (request : VideoRequest) :
    (∃ resp, (generate_shorts fetch invoke request).1 = .ok resp) ∨
    (∃ detail, (generate_shorts fetch invoke request).1 = .err 500 detail) := by
  rcases hdl : download_transcript_traced fetch request.video_url "ko" with ⟨res, tcalls⟩
  rcases res with e | tx
  · exact Or.inr ⟨e, by simp [generate_shorts, hdl]⟩
  · rcases hg : generate_shorts_script_traced invoke tx request.api_key request.style
      with ⟨gres, n⟩
    rcases gres with e | script
    · exact Or.inr ⟨e, by simp [generate_shorts, hdl, hg]⟩
    · rcases h1 : dict_get script "title" with e | t
      · exact Or.inr ⟨e, by simp [generate_shorts, hdl, hg, h1]⟩
      · rcases h2 : dict_get script "subtitles" with e | s
        · exact Or.inr ⟨e, by simp [generate_shorts, hdl, hg, h1, h2]⟩
        · rcases h3 : dict_get script "narration" with e | nn
          · exact Or.inr ⟨e, by simp [generate_shorts, hdl, hg, h1, h2, h3]⟩
          · rcases h4 : dict_get script "visual_suggestions" with e | v
            · exact Or.inr ⟨e, by simp [generate_shorts, hdl, hg, h1, h2, h3, h4]⟩
            · exact Or.inl ⟨⟨t, s, nn, v⟩, by simp [generate_shorts, hdl, hg, h1, h2, h3, h4]⟩

/-- C5: when the model reply is valid JSON but lacks one of the four
required fields, the request fails with an HTTP 500 rather than returning
a partially populated result; in particular, with title and subtitles
present but narration missing, the failure is the narration KeyError. -/
theorem missing_field_rejected {α : Type}
    (fetch : String → Option (List String) → Except String (List (TranscriptSegment α)))
    (invoke : String → Except String String) (request : VideoRequest)
    (tx resp : String) (d : List (String × String))
    (hkey : request.api_key ≠ "")
    (hfetch : (download_transcript_traced fetch request.video_url "ko").1 = .ok tx)
    (hinv : invoke (build_prompt tx request.style) = .ok resp)
    (hparse : parse_json (String.mk (extract_json_source resp.data)) = .ok d) :
    (∀ t0 s0, d.lookup "title" = some t0 → d.lookup "subtitles" = some s0 →
      d.lookup "narration" = none →
      (generate_shorts fetch invoke request).1 = .err 500 "'narration'") ∧
    ((d.lookup "title" = none ∨ d.lookup "subtitles" = none ∨ d.lookup "narration" = none ∨
        d.lookup "visual_suggestions" = none) →
      ∀ r, (generate_shorts fetch invoke request).1 ≠ .ok r) := by
  have hgss : generate_shorts_script_traced invoke tx request.api_key request.style =
      (.ok d, 1) := by
    simp [generate_shorts_script_traced, hkey, hinv, hparse]
  rcases hdl : download_transcript_traced fetch request.video_url "ko" with ⟨res, tcalls⟩
  rw [hdl] at hfetch
  simp at hfetch
  subst hfetch
  constructor
  · intro t0 s0 ht hs hn
    simp [generate_shorts, hdl, hgss, dict_get, ht, hs, hn]
  · intro hmiss r hok
    rcases h1 : d.lookup "title" with _ | t0
    · simp [generate_shorts, hdl, hgss, dict_get, h1] at hok
    · rcases h2 : d.lookup "subtitles" with _ | s0
      · simp [generate_shorts, hdl, hgss, dict_get, h1, h2] at hok
      · rcases h3 : d.lookup "narration" with _ | n0
        · simp [generate_shorts, hdl, hgss, dict_get, h1, h2, h3] at hok
        · rcases h4 : d.lookup "visual_suggestions" with _ | v0
          · simp [generate_shorts, hdl, hgss, dict_get, h1, h2, h3, h4] at hok
          · rcases hmiss with hm | hm | hm | hm <;> simp_all

/-- Witness for C5: a reply with title, subtitles and visual suggestions
but no narration produces the 500 narration KeyError. -/
theorem missing_field_rejected_witness :
    (generate_shorts fetch_ok_simple invoke_missing_narration
        ⟨"abc123XY_-Z", "sk-test", "유머러스"⟩).1 = .err 500 "'narration'" :=
  (missing_field_rejected fetch_ok_simple invoke_missing_narration
      ⟨"abc123XY_-Z", "sk-test", "유머러스"⟩ "자막"
      "\x7b\"title\": \"t\", \"subtitles\": \"s\", \"visual_suggestions\": \"v\"\x7d"
      [("title", "t"), ("subtitles", "s"), ("visual_suggestions", "v")]
      (by decide) rfl rfl rfl).1 "t" "s" rfl rfl rfl

/-! ### Lemmas about whitespace stripping and fence splitting -/

/-- Dropping a prefix never lengthens a list. -/
theorem len_dropWhile_le (p : Char → Bool) (l : List Char) :
    (List.dropWhile p l).length ≤ l.length := by
  induction l with
  | nil => simp
  | cons c cs ih =>
    by_cases h : p c
    · simp only [List.dropWhile_cons, if_pos h]
      calc (List.dropWhile p cs).length ≤ cs.length := ih
        _ ≤ (c :: cs).length := by simp
    · simp [List.dropWhile_cons, h]

/-- A `dropWhile` that preserves the length is the identity. -/
theorem dropWhile_eq_self_of_length (p : Char → Bool) (l : List Char)
    (h : (List.dropWhile p l).length = l.length) : List.dropWhile p l = l := by
  cases l with
  | nil => rfl
  | cons c cs =>
    by_cases hp : p c = true
    · exfalso
      rw [List.dropWhile_cons, if_pos hp] at h
      have h1 : (List.dropWhile p cs).length = cs.length + 1 := by simpa using h
      have h2 := len_dropWhile_le p cs
      omega
    · rw [List.dropWhile_cons, if_neg hp]

/-- A `dropWhile` that is the identity did not drop the head. -/
theorem head_not_space_of_dropWhile_self (p : Char → Bool) (c : Char) (cs : List Char)
    (h : List.dropWhile p (c :: cs) = c :: cs) : p c = false := by
  by_cases hp : p c = true
  · exfalso
    rw [List.dropWhile_cons, if_pos hp] at h
    have h1 : (List.dropWhile p cs).length = cs.length + 1 := by
      simpa using congrArg List.length h
    have h2 := len_dropWhile_le p cs
    omega
  · simpa using hp

/-- Stripping keeps a non-whitespace head. -/
theorem dropWhile_keep (a : Char) (l : List Char) (h : is_py_space a = false) :
    List.dropWhile is_py_space (a :: l) = a :: l := by
  simp [List.dropWhile_cons, h]

/-- Stripping consumes a whitespace head. -/
theorem dropWhile_space (a : Char) (l : List Char) (h : is_py_space a = true) :
    List.dropWhile is_py_space (a :: l) = List.dropWhile is_py_space l := by
  simp [List.dropWhile_cons, h]

/-- A string equal to its own strip sheds no leading whitespace. -/
theorem py_strip_self_dropWhile (j : List Char) (htrim : py_strip j = j) :
    List.dropWhile is_py_space j = j := by
  apply dropWhile_eq_self_of_length
  have h1 := congrArg List.length htrim
  have h2 : (py_strip j).length ≤ (List.dropWhile is_py_space j).length := by
    unfold py_strip
    rw [List.length_reverse]
    calc (List.dropWhile is_py_space (List.dropWhile is_py_space j).reverse).length
        ≤ (List.dropWhile is_py_space j).reverse.length := len_dropWhile_le _ _
      _ = (List.dropWhile is_py_space j).length := List.length_reverse _
  have h3 := len_dropWhile_le is_py_space j
  rw [h1] at h2
  omega

/-- A string equal to its own strip sheds no trailing whitespace. -/
theorem py_strip_self_rev (j : List Char) (htrim : py_strip j = j) :
    List.dropWhile is_py_space j.reverse = j.reverse := by
  have hD1 := py_strip_self_dropWhile j htrim
  have h2 : (List.dropWhile is_py_space j.reverse).reverse = j := by
    have hx := htrim
    unfold py_strip at hx
    rwa [hD1] at hx
  have h3 := congrArg List.reverse h2
  rwa [List.reverse_reverse] at h3

/-- Stripping the newline-padded form of an already-stripped string
recovers the string. -/
theorem py_strip_nl_wrap (j : List Char) (htrim : py_strip j = j) :
    py_strip ('\n' :: (j ++ ['\n'])) = j := by
  cases j with
  | nil => decide
  | cons c cs =>
    have hD1 : List.dropWhile is_py_space (c :: cs) = c :: cs :=
      py_strip_self_dropWhile _ htrim
    have hc : is_py_space c = false := head_not_space_of_dropWhile_self _ _ _ hD1
    have hD2 : List.dropWhile is_py_space (c :: cs).reverse = (c :: cs).reverse :=
      py_strip_self_rev _ htrim
    unfold py_strip
    rw [dropWhile_space _ _ (by decide)]
    rw [show ((c :: cs) ++ ['\n']) = c :: (cs ++ ['\n']) from rfl]
    rw [dropWhile_keep _ _ hc]
    rw [show (c :: (cs ++ ['\n'])).reverse = '\n' :: (c :: cs).reverse by simp]
    rw [dropWhile_space _ _ (by decide), hD2, List.reverse_reverse]

/-- An input containing no fence does not start with one. -/
theorem not_starts_of_no_fence (j : List Char) (h : has_fence j = false) :
    starts_with_chars fence_marker j = false := by
  cases j with
  | nil => rfl
  | cons c cs =>
    simp only [has_fence, Bool.or_eq_false_iff] at h
    exact h.1

/-- The splitter walks over a position where the separator does not
occur. -/
theorem split_first_step (sep : List Char) (c : Char) (cs : List Char)
    (h : starts_with_chars sep (c :: cs) = false) :
    split_first sep (c :: cs) = (c :: (split_first sep cs).1, (split_first sep cs).2) := by
  simp [split_first, h]

/-- Scanning a fence-free block followed by a newline and the closing
fence finds the separator exactly at the closing fence. -/
theorem split_first_scan (j : List Char) (h : has_fence j = false) :
    split_first fence_marker (j ++ ('\n' :: fence_marker)) = (j ++ ['\n'], some []) := by
  induction j with
  | nil => rfl
  | cons c cs ih =>
    simp only [has_fence, Bool.or_eq_false_iff] at h
    obtain ⟨hsw, hcs⟩ := h
    have hne : starts_with_chars fence_marker (c :: (cs ++ ('\n' :: fence_marker))) = false := by
      by_cases hc : c = graveChar
      · subst hc
        rcases cs with _ | ⟨d, cs'⟩
        · decide
        · by_cases hd : d = graveChar
          · subst hd
            rcases cs' with _ | ⟨e, cs''⟩
            · decide
            · by_cases he : e = graveChar
              · subst he
                simp [starts_with_chars, fence_marker] at hsw
              · simp [starts_with_chars, fence_marker, beq_iff_eq, Ne.symm he]
          · simp [starts_with_chars, fence_marker, beq_iff_eq, Ne.symm hd]
      · simp [starts_with_chars, fence_marker, beq_iff_eq, Ne.symm hc]
    rw [List.cons_append, split_first_step _ _ _ hne, ih hcs]
    simp

/-- Stripping is the identity on a backtick-delimited response. -/
theorem py_strip_fence_wrapped (mid : List Char) :
    py_strip ((graveChar :: mid) ++ ('\n' :: fence_marker)) =
      (graveChar :: mid) ++ ('\n' :: fence_marker) := by
  have hrev : (graveChar :: (mid ++ ('\n' :: fence_marker))).reverse =
      graveChar :: graveChar :: graveChar :: '\n' :: (graveChar :: mid).reverse := by
    simp [fence_marker, List.reverse_append]
  unfold py_strip
  rw [List.cons_append, dropWhile_keep _ _ (by decide), hrev,
    dropWhile_keep _ _ (by decide), ← hrev, List.reverse_reverse]

/-- Counterexample for C4 as stated: a fenced reply whose inner JSON
itself contains a triple backtick (inside a string value) is truncated by
the `split` at the inner fence, so the generator's parse of the fenced
reply fails while the identical unwrapped reply parses successfully. -/
theorem fence_inner_backticks_diverge :
    parse_json (String.mk (extract_json_source
        "```json\n\x7b\"title\": \"a```b\"\x7d\n```".data)) = .error "Expecting value" ∧
    parse_json (String.mk (extract_json_source
        "\x7b\"title\": \"a```b\"\x7d".data)) = .ok [("title", "a```b")] :=
  ⟨rfl, rfl⟩

/-- C4 (amended): for a reply wrapped in a triple-backtick fence (with or
without the `json` language tag) whose inner content is already stripped
and contains no further triple backtick, the generator extracts exactly
the inner content — the same string the identical unwrapped reply yields
— and therefore parses both to the same result. -/
theorem fence_strip_equiv (j : List Char) (hnf : has_fence j = false)
    (htrim : py_strip j = j) :
    extract_json_source ("```json\n".data ++ (j ++ "\n```".data)) = extract_json_source j ∧
    extract_json_source ("```\n".data ++ (j ++ "\n```".data)) = extract_json_source j ∧
    parse_json (String.mk (extract_json_source ("```json\n".data ++ (j ++ "\n```".data)))) =
      parse_json (String.mk (extract_json_source j)) := by
  have hunwrap : extract_json_source j = j := by
    simp [extract_json_source, htrim, not_starts_of_no_fence j hnf]
  have htag : extract_json_source ("```json\n".data ++ (j ++ "\n```".data)) = j := by
    have hps : py_strip ("```json\n".data ++ (j ++ "\n```".data)) =
        "```json\n".data ++ (j ++ "\n```".data) :=
      py_strip_fence_wrapped (graveChar :: graveChar :: 'j' :: 's' :: 'o' :: 'n' :: '\n' :: j)
    have hsw : starts_with_chars fence_marker
        ("```json\n".data ++ (j ++ "\n```".data)) = true := rfl
    have hdrop : ("```json\n".data ++ (j ++ "\n```".data)).drop 3 =
        'j' :: 's' :: 'o' :: 'n' :: '\n' :: (j ++ ('\n' :: fence_marker)) := rfl
    have hsplit : split_first fence_marker
        ('j' :: 's' :: 'o' :: 'n' :: '\n' :: (j ++ ('\n' :: fence_marker))) =
        ('j' :: 's' :: 'o' :: 'n' :: '\n' :: (j ++ ['\n']), some []) := by
      rw [split_first_step fence_marker 'j'
            ('s' :: 'o' :: 'n' :: '\n' :: (j ++ ('\n' :: fence_marker))) rfl,
          split_first_step fence_marker 's'
            ('o' :: 'n' :: '\n' :: (j ++ ('\n' :: fence_marker))) rfl,
          split_first_step fence_marker 'o'
            ('n' :: '\n' :: (j ++ ('\n' :: fence_marker))) rfl,
          split_first_step fence_marker 'n'
            ('\n' :: (j ++ ('\n' :: fence_marker))) rfl,
          split_first_step fence_marker '\n' (j ++ ('\n' :: fence_marker)) rfl,
          split_first_scan j hnf]
    have hseg : starts_with_chars json_tag
        ('j' :: 's' :: 'o' :: 'n' :: '\n' :: (j ++ ['\n'])) = true := rfl
    have hdrop4 : ('j' :: 's' :: 'o' :: 'n' :: '\n' :: (j ++ ['\n'])).drop 4 =
        '\n' :: (j ++ ['\n']) := rfl
    simp only [extract_json_source, hps, hsw, hdrop, hsplit, hseg, hdrop4, if_true]
    exact py_strip_nl_wrap j htrim
  have hplain : extract_json_source ("```\n".data ++ (j ++ "\n```".data)) = j := by
    have hps : py_strip ("```\n".data ++ (j ++ "\n```".data)) =
        "```\n".data ++ (j ++ "\n```".data) :=
      py_strip_fence_wrapped (graveChar :: graveChar :: '\n' :: j)
    have hsw : starts_with_chars fence_marker
        ("```\n".data ++ (j ++ "\n```".data)) = true := rfl
    have hdrop : ("```\n".data ++ (j ++ "\n```".data)).drop 3 =
        '\n' :: (j ++ ('\n' :: fence_marker)) := rfl
    have hsplit : split_first fence_marker ('\n' :: (j ++ ('\n' :: fence_marker))) =
        ('\n' :: (j ++ ['\n']), some []) := by
      rw [split_first_step fence_marker '\n' (j ++ ('\n' :: fence_marker)) rfl,
          split_first_scan j hnf]
    have hseg : starts_with_chars json_tag ('\n' :: (j ++ ['\n'])) = false := rfl
    simp only [extract_json_source, hps, hsw, hdrop, hsplit, hseg, if_true,
      Bool.false_eq_true, if_false]
    exact py_strip_nl_wrap j htrim
  exact ⟨htag.trans hunwrap.symm, hplain.trans hunwrap.symm, by rw [htag, hunwrap]⟩

/-- Witness for C4 (amended) at a concrete backtick-free JSON object. -/
theorem fence_strip_equiv_witness :
    extract_json_source ("```json\n".data ++ ("\x7b\"title\": \"t\"\x7d".data ++ "\n```".data)) =
      extract_json_source "\x7b\"title\": \"t\"\x7d".data ∧
    extract_json_source ("```\n".data ++ ("\x7b\"title\": \"t\"\x7d".data ++ "\n```".data)) =
      extract_json_source "\x7b\"title\": \"t\"\x7d".data ∧
    parse_json (String.mk (extract_json_source
        ("```json\n".data ++ ("\x7b\"title\": \"t\"\x7d".data ++ "\n```".data)))) =
      parse_json (String.mk (extract_json_source "\x7b\"title\": \"t\"\x7d".data)) :=
  fence_strip_equiv "\x7b\"title\": \"t\"\x7d".data (by decide) (by decide)
